import Mathlib

/-!
Shallow embedding of src/main.py (a single-file SSH deployment tool).

External effects are modelled by an oracle (`Env`): the result of the k-th
remote command execution and the success of the k-th SFTP transfer are given
by functions of the call index.  Every modelled operation threads a counter
(`Ctr`, how many remote executions / transfers have happened so far) and
returns, next to its boolean result, a `Trace` recording console output,
executed remote commands, attempted transfers and local file writes, in
program order within each list.
-/

namespace DeployModel

/-- Result of one remote command execution, mirroring the dictionary
returned by run_remote_command in src/main.py. -/
structure CmdResult where
  returncode : Nat
  stdout : String
  stderr : String
deriving Repr, DecidableEq

/-- Oracle for the external world: outcome of the k-th remote command
execution and of the k-th SFTP put. -/
structure Env where
  exec : Nat → String → CmdResult
  sftpPut : Nat → String → String → Bool

/-- Counters of performed external calls. -/
structure Ctr where
  execIdx : Nat
  putIdx : Nat
deriving Repr, DecidableEq

/-- Observable trace of a run: printed lines, executed remote commands,
attempted SFTP transfers (local, remote), local file writes (path, content). -/
structure Trace where
  log : List String
  cmds : List String
  puts : List (String × String)
  writes : List (String × String)
deriving Repr, DecidableEq

def Trace.empty : Trace := ⟨[], [], [], []⟩

def Trace.app (t u : Trace) : Trace :=
  ⟨t.log ++ u.log, t.cmds ++ u.cmds, t.puts ++ u.puts, t.writes ++ u.writes⟩

/-- Sequencing with the early-return discipline of deploy_script: the second
step runs only when the first reported success. -/
def andThen (r : Bool × Ctr × Trace) (f : Ctr → Bool × Ctr × Trace) : Bool × Ctr × Trace :=
  if r.1 then
    let x := f r.2.1
    (x.1, x.2.1, Trace.app r.2.2 x.2.2)
  else r

/-- Prepend console output to a step's trace. -/
def withLog (ls : List String) (r : Bool × Ctr × Trace) : Bool × Ctr × Trace :=
  (r.1, r.2.1, Trace.app ⟨ls, [], [], []⟩ r.2.2)

/-! String helpers, modelling the Python primitives used by the source. -/

/-- Decidable list prefix test. -/
def listIsPrefix [DecidableEq α] : List α → List α → Bool
  | [], _ => true
  | _ :: _, [] => false
  | a :: as, b :: bs => a = b && listIsPrefix as bs

/-- Decidable contiguous-sublist test, modelling the Python substring
operator (needle in hay). -/
def listIsSub [DecidableEq α] : List α → List α → Bool
  | needle, [] => needle.isEmpty
  | needle, b :: bs => listIsPrefix needle (b :: bs) || listIsSub needle bs

/-- Python substring membership: needle occurs contiguously in hay. -/
def strContains (hay needle : String) : Bool :=
  listIsSub needle.data hay.data

/-- Python str.strip default whitespace set. -/
def isSpaceChar (c : Char) : Bool :=
  c = ' ' || c = '\t' || c = '\n' || c = '\r' || c = Char.ofNat 11 || c = Char.ofNat 12

/-- Python str.strip (default arguments). -/
def pyStrip (s : String) : String :=
  ⟨((s.data.dropWhile isSpaceChar).reverse.dropWhile isSpaceChar).reverse⟩

/-- Python str.lower, restricted to ASCII as used by the source. -/
def pyLower (s : String) : String :=
  ⟨s.data.map Char.toLower⟩

/-- POSIX os.path.dirname: everything up to the last slash, with trailing
slashes stripped from the head unless the head is all slashes. -/
def dirname (p : String) : String :=
  let head := (p.data.reverse.dropWhile (fun c => c ≠ '/')).reverse
  if head.all (fun c => c = '/') then ⟨head⟩
  else ⟨(head.reverse.dropWhile (fun c => c = '/')).reverse⟩

/-! The modelled operations of src/main.py. -/

/-- Static data of one deployment run: credentials, target identity, and the
facts about the cloned source tree and the interactive answers that the
source inspects. -/
structure Config where
  password : String
  user : String
  scriptName : String
  scriptPath : String
  envDir : String
  files : List String
  envFileExists : Bool
  envAnswer : String
  envLines : List String
  reqTxtExists : Bool
  cronTxtExists : Bool
  cronContent : String

/-- upload_file (src/main.py lines 46-58): run mkdir -p for the remote parent
directory, then attempt the SFTP transfer; an exception during the transfer
is caught, logged, and surfaced as a false result. -/
def upload_file (env : Env) (localPath remotePath : String) (c : Ctr) : Bool × Ctr × Trace :=
  let mkdirCmd := "mkdir -p " ++ dirname remotePath
  let c1 : Ctr := ⟨c.execIdx + 1, c.putIdx⟩
  let ok := env.sftpPut c1.putIdx localPath remotePath
  let c2 : Ctr := ⟨c1.execIdx, c1.putIdx + 1⟩
  if ok then
    (true, c2, ⟨[], [mkdirCmd], [(localPath, remotePath)], []⟩)
  else
    (false, c2, ⟨["Failed to upload " ++ localPath ++ ": exception"], [mkdirCmd],
      [(localPath, remotePath)], []⟩)

/-- handle_env_file (src/main.py lines 67-102). -/
def handle_env_file (env : Env) (cfg : Config) (c : Ctr) : Bool × Ctr × Trace :=
  let envFilePath := cfg.envDir ++ "/" ++ cfg.scriptName ++ ".env"
  if cfg.envFileExists then
    withLog ["Found .env file for " ++ cfg.scriptName]
      (upload_file env envFilePath ("/opt/" ++ cfg.scriptName ++ "/.env") c)
  else
    let prompts := ["No .env file found for " ++ cfg.scriptName ++ " at " ++ envFilePath,
                    "Would you like to create one now? (y/n): "]
    if pyStrip (pyLower cfg.envAnswer) = "y" then
      let collected := (cfg.envLines.map pyStrip).takeWhile (fun l => l ≠ "")
      let content := String.intercalate "\n" collected
      let t0 : Trace := ⟨prompts ++
        ["Enter your environment variables (one per line)",
         "Format: KEY=VALUE",
         "Press Enter twice when done",
         "Created .env file at " ++ envFilePath],
        [], [], [(envFilePath, content)]⟩
      let r := upload_file env envFilePath ("/opt/" ++ cfg.scriptName ++ "/.env") c
      (r.1, r.2.1, Trace.app t0 r.2.2)
    else
      (true, c, ⟨prompts, [], [], []⟩)

/-- The privileged directory-creation command (src/main.py line 109). -/
def createDirCmd (password name : String) : String :=
  "echo '" ++ password ++ "' | sudo -S mkdir -p /opt/" ++ name

/-- The privileged ownership-change command (src/main.py line 120). -/
def chownCmd (password user name : String) : String :=
  "echo '" ++ password ++ "' | sudo -S chown " ++ user ++ ":" ++ user ++ " /opt/" ++ name

/-- Steps 1 and 2 of deploy_script (lines 108-128): privileged mkdir then
chown, each printed together with its full command text, each fatal on a
non-zero exit code. -/
def privPhase (env : Env) (cfg : Config) (c : Ctr) : Bool × Ctr × Trace :=
  let cmd1 := createDirCmd cfg.password cfg.scriptName
  let r1 := env.exec c.execIdx cmd1
  let c1 : Ctr := ⟨c.execIdx + 1, c.putIdx⟩
  let log1 := ["Creating directory with command: " ++ cmd1,
               "Create directory result - returncode: " ++ toString r1.returncode,
               "stdout: " ++ r1.stdout,
               "stderr: " ++ r1.stderr]
  if r1.returncode ≠ 0 then
    (false, c1, ⟨log1 ++ ["Failed to create directory: " ++ r1.stderr], [cmd1], [], []⟩)
  else
    let cmd2 := chownCmd cfg.password cfg.user cfg.scriptName
    let r2 := env.exec c1.execIdx cmd2
    let c2 : Ctr := ⟨c1.execIdx + 1, c1.putIdx⟩
    let log2 := ["Setting permissions with command: " ++ cmd2,
                 "Set permissions result - returncode: " ++ toString r2.returncode,
                 "stdout: " ++ r2.stdout,
                 "stderr: " ++ r2.stderr]
    if r2.returncode ≠ 0 then
      (false, c2, ⟨log1 ++ log2 ++ ["Failed to set permissions: " ++ r2.stderr],
        [cmd1, cmd2], [], []⟩)
    else
      (true, c2, ⟨log1 ++ log2, [cmd1, cmd2], [], []⟩)

/-- Step 3 of deploy_script (lines 131-138): upload every file of the source
tree, aborting on the first failure. -/
def uploadFiles (env : Env) (cfg : Config) : List String → Ctr → Bool × Ctr × Trace
  | [], c => (true, c, Trace.empty)
  | f :: fs, c =>
    let r := upload_file env (cfg.scriptPath ++ "/" ++ f)
      ("/opt/" ++ cfg.scriptName ++ "/" ++ f) c
    if r.1 then
      let rest := uploadFiles env cfg fs r.2.1
      (rest.1, rest.2.1, Trace.app r.2.2 rest.2.2)
    else r

/-- The combined virtual-environment setup command (lines 146-153). -/
def venvCmd (name : String) : String :=
  "cd /opt/" ++ name ++ " && python3.12 -m venv venv && source venv/bin/activate && pip install --upgrade pip && pip install -r requirements.txt"

/-- The generated runner script text (lines 159-173), reproducing the
indentation of the Python f-string literal. -/
def runnerScript (name : String) : String :=
  String.intercalate "\n"
    ["#!/usr/bin/bash",
     "            # Set the PATH variable to include the default system paths",
     "            export PATH=/usr/local/sbin:/usr/local/bin:/usr/sbin:/usr/bin:/sbin:/bin",
     "",
     "            # Full path to the Python interpreter and log file",
     "            PYTHON_INTERPRETER=\"/opt/" ++ name ++ "/venv/bin/python3\"",
     "",
     "            # Create logs directory if it doesn't exist",
     "            mkdir -p /opt/" ++ name ++ "/logs",
     "",
     "            # Run the Python script within the virtual environment and log output",
     "            cd /opt/" ++ name,
     "            source venv/bin/activate",
     "            $PYTHON_INTERPRETER /opt/" ++ name ++ "/main.py &",
     "            "]

def chmodCmd (name : String) : String :=
  "chmod +x /opt/" ++ name ++ "/run_script.sh"

def dos2unixCmd (name : String) : String :=
  "dos2unix /opt/" ++ name ++ "/run_script.sh"

/-- The privilege-escalated dos2unix installation command (line 197). -/
def installDos2unixCmd (password : String) : String :=
  "echo '" ++ password ++ "' | sudo -S apt-get update && echo '" ++ password ++ "' | sudo -S apt-get install -y dos2unix"

/-- The runner-setup loop of deploy_script (lines 190-206): each command is
fatal on non-zero exit, except that a failing command whose text mentions
dos2unix triggers an install attempt; if the install succeeds the command is
retried once and a failing retry is fatal, while a failing install falls
through to the next loop iteration. -/
def setupLoop (env : Env) (password : String) : List String → Ctr → Bool × Ctr × Trace
  | [], c => (true, c, Trace.empty)
  | cmd :: rest, c =>
    let r := env.exec c.execIdx cmd
    let c1 : Ctr := ⟨c.execIdx + 1, c.putIdx⟩
    if r.returncode ≠ 0 then
      let t0 : Trace := ⟨["Failed to execute " ++ cmd ++ ": " ++ r.stderr], [cmd], [], []⟩
      if strContains cmd "dos2unix" then
        let t1 := Trace.app t0 ⟨["Installing dos2unix..."], [], [], []⟩
        let icmd := installDos2unixCmd password
        let r2 := env.exec c1.execIdx icmd
        let c2 : Ctr := ⟨c1.execIdx + 1, c1.putIdx⟩
        let t2 := Trace.app t1 ⟨[], [icmd], [], []⟩
        if r2.returncode = 0 then
          let r3 := env.exec c2.execIdx cmd
          let c3 : Ctr := ⟨c2.execIdx + 1, c2.putIdx⟩
          let t3 := Trace.app t2 ⟨[], [cmd], [], []⟩
          if r3.returncode ≠ 0 then
            (false, c3, Trace.app t3 ⟨["Failed to convert line endings: " ++ r3.stderr], [], [], []⟩)
          else
            let k := setupLoop env password rest c3
            (k.1, k.2.1, Trace.app t3 k.2.2)
        else
          let k := setupLoop env password rest c2
          (k.1, k.2.1, Trace.app t2 k.2.2)
      else
        (false, c1, t0)
    else
      let k := setupLoop env password rest c1
      (k.1, k.2.1, Trace.app ⟨[], [cmd], [], []⟩ k.2.2)

/-- Steps 5 and 6 of deploy_script (lines 144-206): only when a dependency
manifest exists, run the virtual-environment setup command, write the runner
script locally, upload it, and run the runner-setup loop. -/
def venvRunnerPhase (env : Env) (cfg : Config) (c : Ctr) : Bool × Ctr × Trace :=
  if cfg.reqTxtExists then
    let vcmd := venvCmd cfg.scriptName
    let r := env.exec c.execIdx vcmd
    let c1 : Ctr := ⟨c.execIdx + 1, c.putIdx⟩
    if r.returncode ≠ 0 then
      (false, c1, ⟨["Failed to set up virtual environment: " ++ r.stderr], [vcmd], [], []⟩)
    else
      let runnerPath := cfg.scriptPath ++ "/run_script.sh"
      let t1 : Trace := ⟨[], [vcmd], [], [(runnerPath, runnerScript cfg.scriptName)]⟩
      let up := upload_file env runnerPath ("/opt/" ++ cfg.scriptName ++ "/run_script.sh") c1
      let t2 := Trace.app t1 up.2.2
      if up.1 then
        let sl := setupLoop env cfg.password [chmodCmd cfg.scriptName, dos2unixCmd cfg.scriptName] up.2.1
        (sl.1, sl.2.1, Trace.app t2 sl.2.2)
      else
        (false, up.2.1, t2)
  else
    (true, c, Trace.empty)

/-- The crontab replacement pipeline (line 214). -/
def cronCmd (name schedule : String) : String :=
  "(crontab -l 2>/dev/null | grep -v \"" ++ name ++ "\" ; echo \"" ++ schedule ++ " /opt/" ++ name ++ "/run_script.sh\") | crontab -"

/-- Step 7 of deploy_script (lines 208-218): only when the schedule file
exists, read and strip its content and run the crontab replacement pipeline,
fatal on non-zero exit. -/
def cronPhase (env : Env) (cfg : Config) (c : Ctr) : Bool × Ctr × Trace :=
  if cfg.cronTxtExists then
    let schedule := pyStrip cfg.cronContent
    let cmd := cronCmd cfg.scriptName schedule
    let r := env.exec c.execIdx cmd
    let c1 : Ctr := ⟨c.execIdx + 1, c.putIdx⟩
    if r.returncode ≠ 0 then
      (false, c1, ⟨["Failed to update crontab: " ++ r.stderr], [cmd], [], []⟩)
    else
      (true, c1, ⟨[], [cmd], [], []⟩)
  else
    (true, c, Trace.empty)

/-- The sequential composition of all deploy_script phases. -/
def deployChain (env : Env) (cfg : Config) (c : Ctr) : Bool × Ctr × Trace :=
  andThen (withLog ["\nDeploying " ++ cfg.scriptName ++ "..."] (privPhase env cfg c)) (fun c1 =>
  andThen (uploadFiles env cfg cfg.files c1) (fun c2 =>
  andThen (handle_env_file env cfg c2) (fun c3 =>
  andThen (venvRunnerPhase env cfg c3) (fun c4 =>
  cronPhase env cfg c4))))

/-- The final success print of deploy_script (line 220): append the success
message when the chain succeeded, otherwise return the failed result. -/
def finishDeploy (name : String) (r : Bool × Ctr × Trace) : Bool × Ctr × Trace :=
  if r.1 then
    (true, r.2.1, Trace.app r.2.2 ⟨["Successfully deployed " ++ name], [], [], []⟩)
  else
    r

/-- deploy_script (src/main.py lines 104-221). -/
def deploy_script (env : Env) (cfg : Config) (c : Ctr) : Bool × Ctr × Trace :=
  finishDeploy cfg.scriptName (deployChain env cfg c)

/-- Modelled from the spec: the deploy_script chain with the
secrets-provisioning step removed, used only to state the counterfactual
comparison of claim C6 (the overall result with the step absent). -/
def deployChainNoSecrets (env : Env) (cfg : Config) (c : Ctr) : Bool × Ctr × Trace :=
  andThen (withLog ["\nDeploying " ++ cfg.scriptName ++ "..."] (privPhase env cfg c)) (fun c1 =>
  andThen (uploadFiles env cfg cfg.files c1) (fun c2 =>
  andThen (venvRunnerPhase env cfg c2) (fun c3 =>
  cronPhase env cfg c3)))

/-- Modelled from the spec: deploy_script with the secrets-provisioning step
removed (claim C6's counterfactual). -/
def deploy_script_without_secrets_step (env : Env) (cfg : Config) (c : Ctr) : Bool × Ctr × Trace :=
  finishDeploy cfg.scriptName (deployChainNoSecrets env cfg c)

/-- Modelled from the spec: the deploy_script chain with the
dependency-setup and runner-materialization steps removed, used only to
state the counterfactual comparison of claim C5 (the remaining steps alone
determine the outcome). -/
def deployChainNoVenv (env : Env) (cfg : Config) (c : Ctr) : Bool × Ctr × Trace :=
  andThen (withLog ["\nDeploying " ++ cfg.scriptName ++ "..."] (privPhase env cfg c)) (fun c1 =>
  andThen (uploadFiles env cfg cfg.files c1) (fun c2 =>
  andThen (handle_env_file env cfg c2) (fun c3 =>
  cronPhase env cfg c3)))

/-- Modelled from the spec: deploy_script with the dependency-setup and
runner-materialization steps removed (claim C5's counterfactual). -/
def deploy_script_without_venv_runner_step (env : Env) (cfg : Config) (c : Ctr) : Bool × Ctr × Trace :=
  finishDeploy cfg.scriptName (deployChainNoVenv env cfg c)

/-! The session handle state machine (connect, lines 25-34; cleanup,
lines 229-234). -/

/-- Openness of the two remote handles of a DeploymentManager: the SSH
command-execution channel and the SFTP file-transfer channel. -/
structure Session where
  sshOpen : Bool
  sftpOpen : Bool
deriving Repr, DecidableEq

/-- The public operations that change the handles.  connect is split by
outcome: full success, failure of the SSH connection itself, and failure of
opening the SFTP channel after the SSH connection succeeded (open_sftp at
line 34 raising). -/
inductive SessionOp
  | connectOk
  | connectSshFail
  | connectSftpFail
  | cleanupOp
deriving Repr, DecidableEq

/-- State transition of the handles for each operation, read off connect and
cleanup in src/main.py. -/
def sessionStep : Session → SessionOp → Session
  | _, SessionOp.connectOk => ⟨true, true⟩
  | _, SessionOp.connectSshFail => ⟨false, false⟩
  | _, SessionOp.connectSftpFail => ⟨true, false⟩
  | _, SessionOp.cleanupOp => ⟨false, false⟩

/-- Both handles start closed; a run is a fold of operations. -/
def sessionRun (ops : List SessionOp) : Session :=
  ops.foldl sessionStep ⟨false, false⟩

/-- The invariant claimed for the session: the handles are both open or both
closed. -/
def bothOrNeither (s : Session) : Bool :=
  s.sshOpen == s.sftpOpen

/-! Cleanup and the driver (src/main.py lines 229-249 and 269-322). -/

/-- The retry loop of cleanup (lines 237-249) over the listed attempt
indices: stop at the first successful removal; on a failing final attempt
warn instead of sleeping.  Returns (removed, sleeps, warned).  The
writable-permission fix-up (force_remove_readonly, lines 223-227) happens
inside one removal attempt and is absorbed into the attempt oracle rm. -/
def rmtreeGo (rm : Nat → Bool) (last : Nat) : List Nat → Bool × Nat × Bool
  | [] => (false, 0, false)
  | i :: rest =>
    if rm i then (true, 0, false)
    else if i = last then (false, 0, true)
    else
      let r := rmtreeGo rm last rest
      (r.1, r.2.1 + 1, r.2.2)

/-- The three attempts of the cleanup retry loop (retry_count = 3). -/
def rmtreeRetry (rm : Nat → Bool) : Bool × Nat × Bool :=
  rmtreeGo rm 2 [0, 1, 2]

/-- Observable outcome of cleanup: which handles were closed, whether the
workspace was removed, how many waits happened between attempts, and whether
the final warning was printed.  cleanup never raises: it is a total
function. -/
structure CleanupResult where
  closedSftp : Bool
  closedSsh : Bool
  removed : Bool
  sleeps : Nat
  warned : Bool
deriving Repr, DecidableEq

/-- cleanup (src/main.py lines 229-249): close each handle that is set, then,
when a temporary workspace exists, run the removal retry loop. -/
def cleanup (hasSftp hasSsh hasTemp : Bool) (rm : Nat → Bool) : CleanupResult :=
  if hasTemp then
    let r := rmtreeRetry rm
    ⟨hasSftp, hasSsh, r.1, r.2.1, r.2.2⟩
  else
    ⟨hasSftp, hasSsh, false, 0, false⟩

/-- Oracle and static data for one run of main (src/main.py lines 269-322):
the remote oracle shared with deploy_script, the deployment configuration,
and the outcomes of the external steps the driver performs itself. -/
structure DriverEnv where
  env : Env
  cfg : Config
  connectSshOk : Bool
  connectSftpOk : Bool
  cloneOk : Bool
  mainPyExists : Bool
  walkLines : List String
  rm : Nat → Bool

/-- Intermediate outcome of the body of main before the finally block:
whether an exception propagates, whether deploy_script was invoked, which
handles are set and whether a workspace was created, plus console output and
executed remote commands.  Exception texts of external libraries are
abstracted to fixed strings. -/
structure RunOutcome where
  raised : Bool
  deployCalled : Bool
  hasSftp : Bool
  hasSsh : Bool
  hasTemp : Bool
  log : List String
  cmds : List String

/-- Result of a whole run of main, after the finally block ran cleanup. -/
structure MainResult where
  raised : Bool
  deployCalled : Bool
  cleanupRan : Bool
  log : List String
  cmds : List String
  cu : CleanupResult

/-- The body of main (lines 283-319): connect, verify the remote runtime,
clone, then either provision (when main.py is present at the repository
root) or print the repository structure.  Each failing step raises; the
except clause prints the error and re-raises. -/
def mainCore (e : DriverEnv) : RunOutcome :=
  let log0 := ["Initializing deployment manager...", "Establishing SSH connection..."]
  if e.connectSshOk = false then
    ⟨true, false, false, true, false, log0 ++ ["An error occurred: connect failed"], []⟩
  else if e.connectSftpOk = false then
    ⟨true, false, false, true, false, log0 ++ ["An error occurred: sftp failed"], []⟩
  else
    let log1 := log0 ++ ["Verifying Python version..."]
    let r1 := e.env.exec 0 "command -v python3.12"
    if r1.returncode ≠ 0 then
      ⟨true, false, true, true, false,
        log1 ++ ["An error occurred: Python 3.12 is not installed on the remote server"],
        ["command -v python3.12"]⟩
    else
      let r2 := e.env.exec 1 "python3.12 --version"
      let cmds2 := ["command -v python3.12", "python3.12 --version"]
      if r2.returncode ≠ 0 then
        ⟨true, false, true, true, false,
          log1 ++ ["An error occurred: Failed to get Python version"], cmds2⟩
      else
        let log2 := log1 ++ ["Remote Python version: " ++ pyStrip r2.stdout,
                             "Cloning repository..."]
        if e.cloneOk = false then
          ⟨true, false, true, true, true,
            log2 ++ ["An error occurred: clone failed"], cmds2⟩
        else
          let log3 := log2 ++ ["Repository cloned to: " ++ e.cfg.scriptPath,
                               "Checking repository structure..."]
          if e.mainPyExists then
            let d := deploy_script e.env e.cfg ⟨2, 0⟩
            let log4 := log3 ++
              ["Found main.py in repository root. Using repo name: " ++ e.cfg.scriptName] ++
              d.2.2.log
            if d.1 then
              ⟨false, true, true, true, true, log4, cmds2 ++ d.2.2.cmds⟩
            else
              ⟨true, true, true, true, true,
                log4 ++ ["Deployment failed!", "An error occurred: Deployment failed"],
                cmds2 ++ d.2.2.cmds⟩
          else
            ⟨false, false, true, true, true,
              log3 ++ ["No main.py found in repository root!", "Repository structure:"] ++
                e.walkLines,
              cmds2⟩

/-- main (lines 269-322): run the body, then unconditionally run cleanup in
the finally block (the manager is constructed before the first failing
operation, so the guard on line 321 is always taken). -/
def mainRun (e : DriverEnv) : MainResult :=
  let k := mainCore e
  { raised := k.raised, deployCalled := k.deployCalled, cleanupRan := true,
    log := k.log, cmds := k.cmds,
    cu := cleanup k.hasSftp k.hasSsh k.hasTemp e.rm }

/-! Concrete inputs used by witnesses and counterexamples. -/

/-- An oracle on which every remote command and every transfer succeeds. -/
def allOkEnv : Env :=
  ⟨fun _ _ => ⟨0, "", ""⟩, fun _ _ _ => true⟩

/-- An oracle failing exactly at the listed remote-execution call indices. -/
def failAtExec (bad : List Nat) : Env :=
  ⟨fun i _ => if i ∈ bad then ⟨1, "", "boom"⟩ else ⟨0, "", ""⟩, fun _ _ _ => true⟩

/-- A concrete deployment configuration exercising the dependency-manifest
branch with no schedule file. -/
def cfg0 : Config :=
  { password := "hunter2", user := "scadaadmin", scriptName := "myscript",
    scriptPath := "/tmp/work", envDir := "/home/u/.script_envs",
    files := ["main.py"], envFileExists := true, envAnswer := "", envLines := [],
    reqTxtExists := true, cronTxtExists := false, cronContent := "" }

/-- cfg0 with a schedule file whose raw content carries surrounding
whitespace. -/
def cfgCron : Config :=
  { cfg0 with cronTxtExists := true, cronContent := "*/5 * * * *\n" }

/-- cfg0 with no dependency manifest. -/
def cfgNoReq : Config :=
  { cfg0 with reqTxtExists := false }

/-- cfg0 with no local secrets file and a declining operator. -/
def cfgNoEnv : Config :=
  { cfg0 with envFileExists := false, envAnswer := "n" }

/-- Oracle family for the runner-setup phase under cfg0: remote call indices
0 mkdir, 1 chown, 2-3 upload directories, 4 venv, 5 runner upload directory,
6 chmod, 7 dos2unix, 8 dos2unix install, 9 dos2unix retry; the booleans give
the exit status (true = 0) of calls 6, 7, 8, 9 and everything else
succeeds. -/
def c1Env (a b c d : Bool) : Env :=
  ⟨fun i _ =>
    if i = 6 then ⟨cond a 0 1, "", ""⟩
    else if i = 7 then ⟨cond b 0 1, "", ""⟩
    else if i = 8 then ⟨cond c 0 1, "", ""⟩
    else if i = 9 then ⟨cond d 0 1, "", ""⟩
    else ⟨0, "", ""⟩,
   fun _ _ _ => true⟩

/-- A concrete driver environment: everything succeeds but the repository
root has no main.py. -/
def drvNoMainPy : DriverEnv :=
  { env := allOkEnv, cfg := cfg0, connectSshOk := true, connectSftpOk := true,
    cloneOk := true, mainPyExists := false,
    walkLines := ["work/", "    readme.md"], rm := fun _ => true }

/-- Modelled from the spec: the effect of the installed crontab pipeline on
the current crontab lines — keep every line not mentioning the target name
(grep -v), then append the new entry line. -/
def cronPipelineEffect (current : List String) (name entry : String) : List String :=
  current.filter (fun l => !(strContains l name)) ++ [entry]

/-- The result and counter of a step, ignoring its trace; used to compare a
run with a counterfactual run that skips a step. -/
def FstCtr (r : Bool × Ctr × Trace) : Bool × Ctr :=
  (r.1, r.2.1)

/-! Helper lemmas. -/

theorem listIsSub_nil_left [DecidableEq α] (l : List α) : listIsSub ([] : List α) l = true := by
  cases l <;> simp [listIsSub, listIsPrefix, List.isEmpty]

theorem listIsPrefix_self_append [DecidableEq α] (l t : List α) :
    listIsPrefix l (l ++ t) = true := by
  induction l with
  | nil => rfl
  | cons a as ih => simp [listIsPrefix, ih]

theorem listIsSub_self_append [DecidableEq α] (n t : List α) :
    listIsSub n (n ++ t) = true := by
  cases n with
  | nil => exact listIsSub_nil_left t
  | cons a as =>
    simp only [listIsSub, List.cons_append, Bool.or_eq_true]
    exact Or.inl (listIsPrefix_self_append (a :: as) t)

theorem listIsSub_append_left [DecidableEq α] (pre : List α) {n t : List α}
    (h : listIsSub n t = true) : listIsSub n (pre ++ t) = true := by
  induction pre with
  | nil => exact h
  | cons p ps ih => simp [listIsSub, ih]

theorem listIsPrefix_append_right [DecidableEq α] {n l : List α} (t : List α)
    (h : listIsPrefix n l = true) : listIsPrefix n (l ++ t) = true := by
  induction n generalizing l with
  | nil => rfl
  | cons a as ih =>
    cases l with
    | nil => simp [listIsPrefix] at h
    | cons b bs =>
      simp [listIsPrefix] at h ⊢
      exact ⟨h.1, ih h.2⟩

theorem listIsSub_append_right [DecidableEq α] {n l : List α} (t : List α)
    (h : listIsSub n l = true) : listIsSub n (l ++ t) = true := by
  induction l with
  | nil =>
    simp [listIsSub, List.isEmpty] at h
    cases n with
    | nil => exact listIsSub_nil_left t
    | cons a as => simp_all
  | cons b bs ih =>
    simp [listIsSub] at h ⊢
    rcases h with h | h
    · exact Or.inl (listIsPrefix_append_right t h)
    · exact Or.inr (ih h)

theorem strContains_append_right (s t n : String) (h : strContains t n = true) :
    strContains (s ++ t) n = true := by
  unfold strContains at h ⊢
  rw [String.data_append]
  exact listIsSub_append_left s.data h

theorem strContains_append_left (s t n : String) (h : strContains s n = true) :
    strContains (s ++ t) n = true := by
  unfold strContains at h ⊢
  rw [String.data_append]
  exact listIsSub_append_right t.data h

theorem strContains_self (s : String) : strContains s s = true := by
  unfold strContains
  have := listIsSub_self_append s.data []
  simpa using this

theorem trace_app_log (t u : Trace) : (Trace.app t u).log = t.log ++ u.log := rfl

theorem andThen_of_fst_false {r : Bool × Ctr × Trace} (f : Ctr → Bool × Ctr × Trace)
    (h : r.1 = false) : andThen r f = r := by
  simp [andThen, h]

theorem andThen_of_true (c : Ctr) (t : Trace) (f : Ctr → Bool × Ctr × Trace) :
    andThen (true, c, t) f = ((f c).1, (f c).2.1, Trace.app t (f c).2.2) := by
  simp [andThen]

theorem fstCtr_andThen_congr (r : Bool × Ctr × Trace) {f g : Ctr → Bool × Ctr × Trace}
    (h : ∀ c, FstCtr (f c) = FstCtr (g c)) :
    FstCtr (andThen r f) = FstCtr (andThen r g) := by
  unfold andThen
  split
  · have := h r.2.1
    simp [FstCtr] at this ⊢
    exact this
  · rfl

theorem fstCtr_andThen_skip (c : Ctr) (t : Trace) (f : Ctr → Bool × Ctr × Trace) :
    FstCtr (andThen (true, c, t) f) = FstCtr (f c) := by
  simp [andThen, FstCtr]

theorem fstCtr_finishDeploy (name : String) (r : Bool × Ctr × Trace) :
    FstCtr (finishDeploy name r) = FstCtr r := by
  unfold finishDeploy
  split <;> simp_all [FstCtr]

theorem mem_log_withLog (x : String) (ls : List String) (r : Bool × Ctr × Trace)
    (h : x ∈ r.2.2.log) : x ∈ (withLog ls r).2.2.log := by
  simp [withLog, Trace.app]
  exact Or.inr h

theorem mem_log_andThen_left (x : String) (r : Bool × Ctr × Trace)
    (f : Ctr → Bool × Ctr × Trace) (h : x ∈ r.2.2.log) : x ∈ (andThen r f).2.2.log := by
  unfold andThen
  split
  · simp [Trace.app]
    exact Or.inl h
  · exact h

theorem mem_log_privPhase (env : Env) (cfg : Config) (c : Ctr) :
    ("Creating directory with command: " ++ createDirCmd cfg.password cfg.scriptName)
      ∈ (privPhase env cfg c).2.2.log := by
  simp only [privPhase]
  split
  · simp
  · split <;> simp

theorem mem_log_deploy (env : Env) (cfg : Config) (c : Ctr) (x : String)
    (h : x ∈ (deployChain env cfg c).2.2.log) : x ∈ (deploy_script env cfg c).2.2.log := by
  simp only [deploy_script, finishDeploy]
  split
  · simp [Trace.app]
    exact Or.inl h
  · exact h

/-! Claim theorems. -/

/-- C7: for every local path and remote path, upload_file records a remote
mkdir -p for the parent directory of the remote path (executed through the
command-execution primitive before the transfer, per the call-counter
discipline) and one transfer attempt; the modelled exception source (a
failing transfer) yields a logged message and a false result instead of
propagating, and the result is true exactly when the transfer completed. -/
theorem c7_upload_contract (env : Env) (l r : String) (c : Ctr) :
    (upload_file env l r c).1 = env.sftpPut c.putIdx l r
    ∧ (upload_file env l r c).2.1 = ⟨c.execIdx + 1, c.putIdx + 1⟩
    ∧ (upload_file env l r c).2.2.cmds = ["mkdir -p " ++ dirname r]
    ∧ (upload_file env l r c).2.2.puts = [(l, r)]
    ∧ (upload_file env l r c).2.2.log
        = (if env.sftpPut c.putIdx l r then []
           else ["Failed to upload " ++ l ++ ": exception"]) := by
  simp only [upload_file]
  split <;> simp_all

/-- C8 counterexample: the state reached when establishing the file-transfer
channel fails during connect is reachable and has exactly one handle open,
so the both-open-or-both-closed invariant does not hold in every reachable
state. -/
theorem c8_counterexample :
    bothOrNeither (sessionRun [SessionOp.connectSftpFail]) = false := by decide

/-- C8 (amended): in every state reached through runs that never fail while
opening the file-transfer channel during connect, the two handles are both
open or both closed; connect opens both and cleanup closes both. -/
theorem c8_amended_invariant (ops : List SessionOp)
    (h : SessionOp.connectSftpFail ∉ ops) :
    bothOrNeither (sessionRun ops) = true := by
  have aux : ∀ (l : List SessionOp) (s : Session), bothOrNeither s = true →
      SessionOp.connectSftpFail ∉ l → bothOrNeither (l.foldl sessionStep s) = true := by
    intro l
    induction l with
    | nil => intro s hs _; exact hs
    | cons op rest ih =>
      intro s _ hmem
      simp only [List.foldl_cons]
      have hop : op ≠ SessionOp.connectSftpFail := by
        intro hcontra
        exact hmem (by simp [hcontra])
      have hstep : bothOrNeither (sessionStep s op) = true := by
        cases op <;> simp_all [sessionStep, bothOrNeither]
      exact ih (sessionStep s op) hstep (fun hr => hmem (by simp [hr]))
  exact aux ops ⟨false, false⟩ rfl h

/-- C8 witness: a run that connects successfully and cleans up keeps the
invariant. -/
theorem c8_amended_witness :
    bothOrNeither (sessionRun [SessionOp.connectOk, SessionOp.cleanupOp]) = true :=
  c8_amended_invariant [SessionOp.connectOk, SessionOp.cleanupOp] (by decide)

/-- C9: cleanup runs on every exit path of the driver (the manager is
constructed before any failing step, so the finally block always reaches
it); it closes the handles that are set and, when a workspace exists,
retries removal up to 3 times — the writable-permission fix-up lives inside
one attempt of the oracle — sleeping between failed attempts, and after a
third failure warns instead of raising (cleanup is a total function). -/
theorem c9_cleanup_always :
    (∀ e : DriverEnv, (mainRun e).cleanupRan = true)
    ∧ (∀ (hasSftp hasSsh : Bool) (rm : Nat → Bool),
        cleanup hasSftp hasSsh true rm
          = ⟨hasSftp, hasSsh, rm 0 || rm 1 || rm 2,
             (if rm 0 then 0 else if rm 1 then 1 else 2),
             !(rm 0 || rm 1 || rm 2)⟩)
    ∧ (∀ (hasSftp hasSsh : Bool) (rm : Nat → Bool),
        cleanup hasSftp hasSsh false rm = ⟨hasSftp, hasSsh, false, 0, false⟩) := by
  refine ⟨fun e => rfl, fun hs hh rm => ?_, fun hs hh rm => rfl⟩
  cases h0 : rm 0 <;> cases h1 : rm 1 <;> cases h2 : rm 2 <;>
    simp [cleanup, rmtreeRetry, rmtreeGo, h0, h1, h2]

/-- C1 counterexample: a trace in which the dos2unix install step itself
fails (exit 1 at call index 8) while the deployment still reports success,
refuting the claim that every such trace reports failure. -/
theorem c1_counterexample :
    (deploy_script (failAtExec [7, 8]) cfg0 ⟨0, 0⟩).1 = true
    ∧ (installDos2unixCmd "hunter2") ∈ (deploy_script (failAtExec [7, 8]) cfg0 ⟨0, 0⟩).2.2.cmds
    ∧ ((failAtExec [7, 8]).exec 8 (installDos2unixCmd "hunter2")).returncode = 1 := by
  decide

/-- C1 (amended): over the oracle family giving exit statuses a b c d to the
chmod, first dos2unix, install, and retried dos2unix calls, a failing chmod
is immediately fatal; a failing dos2unix triggers the privilege-escalated
install and, when the install succeeds, exactly one retry whose failure is
fatal; but when the install itself fails the failure is swallowed, the setup
loop moves on, and the deployment still reports success. -/
theorem c1_amended_retry (a b c d : Bool) :
    ((deploy_script (c1Env a b c d) cfg0 ⟨0, 0⟩).1
      = (if a then (if b then true else if c then d else true) else false))
    ∧ ((deploy_script (c1Env a b c d) cfg0 ⟨0, 0⟩).2.2.cmds.count (dos2unixCmd "myscript")
      = (if a then (if b then 1 else if c then 2 else 1) else 0))
    ∧ ((deploy_script (c1Env a b c d) cfg0 ⟨0, 0⟩).2.2.cmds.count (installDos2unixCmd "hunter2")
      = (if a && !b then 1 else 0)) := by
  cases a <;> cases b <;> cases c <;> cases d <;> decide

/-- C2: the deployment log always contains a printed line carrying the
remote password: deploy_script prints the full privileged directory-creation
command, which interpolates the password (src/main.py line 110), so the
claimed hyperproperty fails for every run that reaches deploy_script. -/
theorem c2_password_printed (env : Env) (cfg : Config) (c : Ctr) :
    ((deploy_script env cfg c).2.2.log).any (fun l => strContains l cfg.password) = true := by
  rw [List.any_eq_true]
  refine ⟨"Creating directory with command: " ++ createDirCmd cfg.password cfg.scriptName,
    ?_, ?_⟩
  · exact mem_log_deploy env cfg c _
      (mem_log_andThen_left _ _ _
        (mem_log_withLog _ _ _ (mem_log_privPhase env cfg c)))
  · apply strContains_append_right
    unfold createDirCmd
    apply strContains_append_left
    apply strContains_append_left
    exact strContains_append_right _ _ _ (strContains_self cfg.password)

/-- C3: when the privileged directory-creation command, or the privileged
ownership-change command after a successful directory creation, returns a
non-zero exit code, deploy_script returns failure with no transfer attempted
and no remote command beyond the two privileged ones executed. -/
theorem c3_priv_failure_aborts (env : Env) (cfg : Config) (c : Ctr)
    (h : (env.exec c.execIdx (createDirCmd cfg.password cfg.scriptName)).returncode ≠ 0
       ∨ ((env.exec c.execIdx (createDirCmd cfg.password cfg.scriptName)).returncode = 0
          ∧ (env.exec (c.execIdx + 1) (chownCmd cfg.password cfg.user cfg.scriptName)).returncode ≠ 0)) :
    (deploy_script env cfg c).1 = false
    ∧ (deploy_script env cfg c).2.2.puts = []
    ∧ ((deploy_script env cfg c).2.2.cmds = [createDirCmd cfg.password cfg.scriptName]
       ∨ (deploy_script env cfg c).2.2.cmds
         = [createDirCmd cfg.password cfg.scriptName,
            chownCmd cfg.password cfg.user cfg.scriptName]) := by
  have hp : (privPhase env cfg c).1 = false
      ∧ (privPhase env cfg c).2.2.puts = []
      ∧ ((privPhase env cfg c).2.2.cmds = [createDirCmd cfg.password cfg.scriptName]
         ∨ (privPhase env cfg c).2.2.cmds
           = [createDirCmd cfg.password cfg.scriptName,
              chownCmd cfg.password cfg.user cfg.scriptName]) := by
    rcases h with h1 | ⟨h1, h2⟩
    · simp only [privPhase]
      simp [h1]
    · simp only [privPhase]
      simp [h1, h2]
  obtain ⟨hf, hpp, hpc⟩ := hp
  have hw : (withLog ["\nDeploying " ++ cfg.scriptName ++ "..."] (privPhase env cfg c)).1 = false := by
    simp [withLog, hf]
  have hchain : deployChain env cfg c
      = withLog ["\nDeploying " ++ cfg.scriptName ++ "..."] (privPhase env cfg c) := by
    unfold deployChain
    exact andThen_of_fst_false _ hw
  have hd : deploy_script env cfg c
      = withLog ["\nDeploying " ++ cfg.scriptName ++ "..."] (privPhase env cfg c) := by
    unfold deploy_script finishDeploy
    rw [hchain]
    simp [hw]
  rw [hd]
  refine ⟨hw, ?_, ?_⟩
  · simp [withLog, Trace.app, hpp]
  · simpa [withLog, Trace.app] using hpc

/-- C3 witness: a run whose privileged directory creation exits non-zero. -/
theorem c3_witness :
    (deploy_script (failAtExec [0]) cfg0 ⟨0, 0⟩).1 = false
    ∧ (deploy_script (failAtExec [0]) cfg0 ⟨0, 0⟩).2.2.puts = [] := by
  have h := c3_priv_failure_aborts (failAtExec [0]) cfg0 ⟨0, 0⟩ (Or.inl (by decide))
  exact ⟨h.1, h.2.1⟩

/-- C4: with a schedule file present, the schedule-installation step executes
exactly the pipeline that lists current entries, filters out lines
mentioning the target name and appends the stripped schedule followed by the
runner path, succeeding exactly when that command exits zero; with it
absent, no command runs; the pipeline effect keeps exactly the lines not
mentioning the name plus the new entry; and the concrete scenarios at
deploy_script level behave as claimed. -/
theorem c4_cron_install (env : Env) (cfg : Config) (c : Ctr) :
    (cfg.cronTxtExists = true →
      (cronPhase env cfg c).2.2.cmds = [cronCmd cfg.scriptName (pyStrip cfg.cronContent)]
      ∧ ((cronPhase env cfg c).1 = true ↔
          (env.exec c.execIdx (cronCmd cfg.scriptName (pyStrip cfg.cronContent))).returncode = 0))
    ∧ (cfg.cronTxtExists = false → cronPhase env cfg c = (true, c, Trace.empty))
    ∧ (∀ (current : List String) (entry line : String),
        line ∈ cronPipelineEffect current cfg.scriptName entry ↔
          ((line ∈ current ∧ strContains line cfg.scriptName = false) ∨ line = entry))
    ∧ cronCmd "myscript" (pyStrip "*/5 * * * *\n")
        = "(crontab -l 2>/dev/null | grep -v \"myscript\" ; echo \"*/5 * * * * /opt/myscript/run_script.sh\") | crontab -"
    ∧ (deploy_script (failAtExec [8]) cfgCron ⟨0, 0⟩).1 = false
    ∧ (deploy_script allOkEnv cfgCron ⟨0, 0⟩).1 = true
    ∧ (deploy_script allOkEnv cfgCron ⟨0, 0⟩).2.2.cmds.count
        (cronCmd "myscript" "*/5 * * * *") = 1
    ∧ (deploy_script allOkEnv cfg0 ⟨0, 0⟩).2.2.cmds.any
        (fun l => strContains l "crontab") = false := by
  refine ⟨?_, ?_, ?_, by decide, by decide, by decide, by decide, by decide⟩
  · intro h
    by_cases hrc : (env.exec c.execIdx (cronCmd cfg.scriptName (pyStrip cfg.cronContent))).returncode = 0 <;>
      simp [cronPhase, h, hrc]
  · intro h
    simp [cronPhase, h]
  · intro current entry line
    simp [cronPipelineEffect, List.mem_filter]

/-- C4 witness: the schedule-present and schedule-absent cases at concrete
inputs. -/
theorem c4_witness :
    (cronPhase allOkEnv cfgCron ⟨8, 3⟩).2.2.cmds = [cronCmd "myscript" "*/5 * * * *"]
    ∧ cronPhase allOkEnv cfg0 ⟨8, 3⟩ = (true, ⟨8, 3⟩, Trace.empty) := by
  constructor
  · have h := ((c4_cron_install allOkEnv cfgCron ⟨8, 3⟩).1 rfl).1
    rw [h]
    decide
  · exact (c4_cron_install allOkEnv cfg0 ⟨8, 3⟩).2.1 rfl

/-- C5: without a dependency manifest the dependency-setup and
runner-materialization phase does nothing, the deployment outcome equals the
outcome with that phase absent, and a concrete all-success run still
succeeds while writing no local file, running no virtual-environment
command, and neither uploading nor configuring any runner script. -/
theorem c5_no_manifest (env : Env) (cfg : Config) (c : Ctr)
    (h : cfg.reqTxtExists = false) :
    venvRunnerPhase env cfg c = (true, c, Trace.empty)
    ∧ FstCtr (deploy_script env cfg c) = FstCtr (deploy_script_without_venv_runner_step env cfg c)
    ∧ (deploy_script allOkEnv cfgNoReq ⟨0, 0⟩).1 = true
    ∧ (deploy_script allOkEnv cfgNoReq ⟨0, 0⟩).2.2.writes = []
    ∧ ((deploy_script allOkEnv cfgNoReq ⟨0, 0⟩).2.2.cmds.any
        (fun l => strContains l "venv") = false)
    ∧ ((deploy_script allOkEnv cfgNoReq ⟨0, 0⟩).2.2.cmds.any
        (fun l => strContains l "run_script.sh") = false)
    ∧ ((deploy_script allOkEnv cfgNoReq ⟨0, 0⟩).2.2.puts.any
        (fun p => strContains p.2 "run_script.sh") = false) := by
  have hphase : ∀ c' : Ctr, venvRunnerPhase env cfg c' = (true, c', Trace.empty) := by
    intro c'
    simp [venvRunnerPhase, h]
  refine ⟨hphase c, ?_, by decide, by decide, by decide, by decide, by decide⟩
  unfold deploy_script deploy_script_without_venv_runner_step
  rw [fstCtr_finishDeploy, fstCtr_finishDeploy]
  unfold deployChain deployChainNoVenv
  apply fstCtr_andThen_congr
  intro c1
  apply fstCtr_andThen_congr
  intro c2
  apply fstCtr_andThen_congr
  intro c3
  rw [hphase c3]
  exact fstCtr_andThen_skip c3 Trace.empty _

/-- C5 witness: the manifest-absent configuration. -/
theorem c5_witness :
    venvRunnerPhase allOkEnv cfgNoReq ⟨4, 2⟩ = (true, ⟨4, 2⟩, Trace.empty)
    ∧ (deploy_script allOkEnv cfgNoReq ⟨0, 0⟩).1 = true := by
  have h := c5_no_manifest allOkEnv cfgNoReq ⟨4, 2⟩ rfl
  exact ⟨h.1, h.2.2.1⟩

/-- C6: with the local secrets file absent and the operator declining
creation, handle_env_file returns true while leaving the counters untouched
and performing no remote command, no transfer and no local write, and the
deployment outcome equals the outcome with the secrets-provisioning step
absent. -/
theorem c6_secrets_declined (env : Env) (cfg : Config) (c : Ctr)
    (h1 : cfg.envFileExists = false) (h2 : pyStrip (pyLower cfg.envAnswer) ≠ "y") :
    (handle_env_file env cfg c).1 = true
    ∧ (handle_env_file env cfg c).2.1 = c
    ∧ (handle_env_file env cfg c).2.2.cmds = []
    ∧ (handle_env_file env cfg c).2.2.puts = []
    ∧ (handle_env_file env cfg c).2.2.writes = []
    ∧ FstCtr (deploy_script env cfg c) = FstCtr (deploy_script_without_secrets_step env cfg c) := by
  have hskip : ∀ (c' : Ctr) (k : Ctr → Bool × Ctr × Trace),
      FstCtr (andThen (handle_env_file env cfg c') k) = FstCtr (k c') := by
    intro c' k
    simp only [handle_env_file, h1]
    rw [if_neg (by simp), if_neg h2]
    exact fstCtr_andThen_skip c' _ k
  refine ⟨?_, ?_, ?_, ?_, ?_, ?_⟩
  · simp [handle_env_file, h1, h2]
  · simp [handle_env_file, h1, h2]
  · simp [handle_env_file, h1, h2]
  · simp [handle_env_file, h1, h2]
  · simp [handle_env_file, h1, h2]
  · unfold deploy_script deploy_script_without_secrets_step
    rw [fstCtr_finishDeploy, fstCtr_finishDeploy]
    unfold deployChain deployChainNoSecrets
    apply fstCtr_andThen_congr
    intro c1
    apply fstCtr_andThen_congr
    intro c2
    exact hskip c2 _

/-- C6 witness: a declining operator on a configuration without a secrets
file; the deployment still succeeds on an all-success oracle. -/
theorem c6_witness :
    (handle_env_file allOkEnv cfgNoEnv ⟨3, 1⟩).1 = true
    ∧ (handle_env_file allOkEnv cfgNoEnv ⟨3, 1⟩).2.1 = (⟨3, 1⟩ : Ctr) := by
  have h := c6_secrets_declined allOkEnv cfgNoEnv ⟨3, 1⟩ rfl (by decide)
  exact ⟨h.1, h.2.1⟩

/-- C10: when the clone succeeds but the repository root has no main.py, the
driver calls no provisioning step — the only remote commands of the whole
run are the two runtime-version checks — prints the repository structure,
does not raise (the process exits successfully), and still runs cleanup. -/
theorem c10_no_mainpy (e : DriverEnv)
    (h1 : e.connectSshOk = true) (h2 : e.connectSftpOk = true)
    (h3 : (e.env.exec 0 "command -v python3.12").returncode = 0)
    (h4 : (e.env.exec 1 "python3.12 --version").returncode = 0)
    (h5 : e.cloneOk = true) (h6 : e.mainPyExists = false) :
    (mainRun e).raised = false
    ∧ (mainRun e).deployCalled = false
    ∧ (mainRun e).cmds = ["command -v python3.12", "python3.12 --version"]
    ∧ "Repository structure:" ∈ (mainRun e).log
    ∧ (mainRun e).cleanupRan = true := by
  simp [mainRun, mainCore, h1, h2, h3, h4, h5, h6]

/-- C10 witness: an all-success run on a repository without main.py. -/
theorem c10_witness :
    (mainRun drvNoMainPy).raised = false ∧ (mainRun drvNoMainPy).deployCalled = false := by
  have h := c10_no_mainpy drvNoMainPy rfl rfl rfl rfl rfl rfl
  exact ⟨h.1, h.2.1⟩

end DeployModel
